import Mathlib

/- A shallow embedding of the booking-state extraction and progression
   logic of src/app/api/chat/route.ts from the dentist AI agent
   repository.  JavaScript strings are modelled as Lean strings over
   lists of characters, the regular expressions of the source are
   modelled by a small backtracking matcher with JavaScript semantics
   (leftmost starting position, ordered alternation, greedy
   quantifiers, case folding restricted to ASCII), and the imperative
   guard-and-fill loop over user messages is translated directly from
   the source as a fold. -/

namespace DentalBooking

/-- Chat message as in the ChatMessage interface of route.ts. -/
structure ChatMessage where
  role : String
  content : String
deriving DecidableEq, Repr

/-- Booking state record as in the BookingState interface of route.ts. -/
structure BookingState where
  step : Nat
  patientName : String
  phoneNumber : String
  email : String
  serviceType : String
  preferredDate : String
  preferredTime : String
  urgency : String
  additionalNotes : String
  isComplete : Bool
deriving DecidableEq, Repr

/-- Character class for the JavaScript regular-expression token \s. -/
def wsChar (c : Char) : Bool :=
  c == ' ' || c == Char.ofNat 9 || c == Char.ofNat 10 || c == Char.ofNat 11 ||
  c == Char.ofNat 12 || c == Char.ofNat 13 || c == Char.ofNat 160 ||
  c == Char.ofNat 0x1680 ||
  (decide (0x2000 ≤ c.toNat) && decide (c.toNat ≤ 0x200a)) ||
  c == Char.ofNat 0x2028 || c == Char.ofNat 0x2029 || c == Char.ofNat 0x202f ||
  c == Char.ofNat 0x205f || c == Char.ofNat 0x3000 || c == Char.ofNat 0xfeff

/-- Character class [a-zA-Z]. -/
def alphaChar (c : Char) : Bool := c.isAlpha

/-- Character class [0-9], the token \d. -/
def digitChar (c : Char) : Bool := c.isDigit

/-- Character class [a-zA-Z\s] used by the name patterns. -/
def nameChar (c : Char) : Bool := alphaChar c || wsChar c

/-- Character class [-.\s] used as separator in the phone patterns. -/
def sepChar (c : Char) : Bool := c == '-' || c == '.' || wsChar c

/-- Character class of the JavaScript dot: any character except a line
terminator. -/
def dotChar (c : Char) : Bool :=
  !(c == Char.ofNat 10 || c == Char.ofNat 13 ||
    c == Char.ofNat 0x2028 || c == Char.ofNat 0x2029)

/-- Character class [a-zA-Z0-9._%+-] of the email local part. -/
def localChar (c : Char) : Bool :=
  c.isAlpha || c.isDigit || c == '.' || c == '_' || c == '%' || c == '+' || c == '-'

/-- Character class [a-zA-Z0-9.-] of the email domain part. -/
def domChar (c : Char) : Bool :=
  c.isAlpha || c.isDigit || c == '.' || c == '-'

/-- Abstract regular expressions covering exactly the constructs used by
route.ts: literals (with an ASCII case-insensitivity flag), ordered
concatenation and alternation, greedy bounded or unbounded repetition of
a character class, a greedy optional group and one capture group. -/
inductive RE where
  | lit : List Char → Bool → RE
  | cat : RE → RE → RE
  | alt : RE → RE → RE
  | rep : (Char → Bool) → Nat → Option Nat → RE
  | opt : RE → RE
  | grp : RE → RE

/-- Length of the longest prefix of the input all of whose characters
satisfy the class. -/
def runLen (p : Char → Bool) : List Char → Nat
  | [] => 0
  | c :: rest => if p c then runLen p rest + 1 else 0

/-- Strip a literal from the front of the input, comparing via ASCII
lower-casing when the case-insensitivity flag is set. -/
def stripLit : List Char → Bool → List Char → Option (List Char)
  | [], _, s => some s
  | _ :: _, _, [] => none
  | l :: lrest, ci, c :: crest =>
    if (if ci then c.toLower == l.toLower else c == l) then stripLit lrest ci crest
    else none

/-- Greedy backtracking consumption of a repeated character class: try
the longest feasible count first, retreating one character at a time
down to the lower bound. -/
def tryRep (k : List Char → Option (List Char) → Option (List Char))
    (s : List Char) (cap : Option (List Char)) (lo : Nat) : Nat → Option (List Char)
  | 0 => if lo = 0 then k s cap else none
  | j + 1 =>
    if j + 1 < lo then none
    else (k (s.drop (j + 1)) cap) <|> tryRep k s cap lo j

/-- Backtracking matcher in continuation-passing style.  The
continuation receives the rest of the input and the current capture;
alternation and optionality try the left or present branch first, as a
JavaScript engine does. -/
def mrun : RE → List Char → Option (List Char) →
    (List Char → Option (List Char) → Option (List Char)) → Option (List Char)
  | .lit ls ci, s, cap, k =>
    match stripLit ls ci s with
    | some s2 => k s2 cap
    | none => none
  | .cat r1 r2, s, cap, k => mrun r1 s cap fun s2 cap2 => mrun r2 s2 cap2 k
  | .alt r1 r2, s, cap, k => mrun r1 s cap k <|> mrun r2 s cap k
  | .rep p lo hi, s, cap, k =>
    tryRep k s cap lo (match hi with | some h => min (runLen p s) h | none => runLen p s)
  | .opt r, s, cap, k => mrun r s cap k <|> k s cap
  | .grp r, s, cap, k => mrun r s cap fun s2 _ => k s2 (some (s.take (s.length - s2.length)))

/-- Unanchored search: try to match at each start position from left to
right, returning the capture of the first successful match. -/
def searchFrom (r : RE) : List Char → Option (List Char)
  | [] => mrun r [] none fun _ cap => some (cap.getD [])
  | c :: rest =>
    (mrun r (c :: rest) none fun _ cap => some (cap.getD [])) <|> searchFrom r rest

/-- Fully anchored match, implementing a pattern delimited on both sides
by the anchors of the source. -/
def matchFull (r : RE) (s : List Char) : Option (List Char) :=
  mrun r s none fun rest cap => if rest.isEmpty then some (cap.getD []) else none

/-- Substring test with the semantics of the JavaScript includes method. -/
def containsSub (needle : List Char) : List Char → Bool
  | [] => needle.isEmpty
  | c :: t => needle.isPrefixOf (c :: t) || containsSub needle t

/-- String-level substring test. -/
def includesStr (needle hay : String) : Bool := containsSub needle.data hay.data

/-- ASCII model of the JavaScript toLowerCase method. -/
def toLowerStr (s : String) : String := String.mk (s.data.map Char.toLower)

/-- Model of the JavaScript trim method: drop whitespace from both ends. -/
def trimJs (s : List Char) : List Char :=
  ((s.dropWhile wsChar).reverse.dropWhile wsChar).reverse

/-- Literal regular-expression atom built from a Lean string. -/
def strLit (s : String) (ci : Bool) : RE := .lit s.data ci

/-- First name pattern of route.ts, with its four ordered alternatives
and the capture of a run of letters and spaces.  The second alternative
is the contraction of the words I and am with an apostrophe. -/
def namePat1 : RE :=
  .cat (.alt (strLit "my name is" true)
       (.alt (.lit ['i', Char.ofNat 39, 'm'] true)
       (.alt (strLit "i am" true)
             (.cat (strLit "name" true) (.cat (.rep dotChar 0 none) (strLit "is" true))))))
    (.cat (.rep wsChar 1 none) (.grp (.rep nameChar 1 none)))

/-- Core of the second and third name patterns: two alphabetic words
separated by whitespace, all captured.  The second pattern anchors this
core to the whole message, the third searches for it anywhere. -/
def namePat2core : RE :=
  .grp (.cat (.rep alphaChar 1 none) (.cat (.rep wsChar 1 none) (.rep alphaChar 1 none)))

/-- First phone pattern: four digits immediately followed by six. -/
def phonePat1 : RE :=
  .grp (.cat (.rep digitChar 4 (some 4)) (.rep digitChar 6 (some 6)))

/-- Second phone pattern: 3-3-4 digit groups with optional separators. -/
def phonePat2 : RE :=
  .grp (.cat (.rep digitChar 3 (some 3)) (.cat (.rep sepChar 0 (some 1))
       (.cat (.rep digitChar 3 (some 3)) (.cat (.rep sepChar 0 (some 1))
             (.rep digitChar 4 (some 4))))))

/-- Third phone pattern: international form with a plus prefix. -/
def phonePat3 : RE :=
  .grp (.cat (strLit "+" false) (.cat (.rep digitChar 1 (some 3))
       (.cat (.rep sepChar 0 (some 1)) (.rep digitChar 8 (some 12)))))

/-- Fourth phone pattern: a bare run of ten to twelve digits. -/
def phonePat4 : RE := .grp (.rep digitChar 10 (some 12))

/-- Email pattern of route.ts; the whole match is used, so the entire
pattern is wrapped in the capture group. -/
def emailPat : RE :=
  .grp (.cat (.rep localChar 1 none) (.cat (strLit "@" false)
       (.cat (.rep domChar 1 none) (.cat (strLit "." false) (.rep alphaChar 2 none)))))

/-- First time pattern: one or two digits, an optional colon-minutes
group, optional whitespace and a meridiem marker. -/
def timePat1 : RE :=
  .grp (.cat (.rep digitChar 1 (some 2))
       (.cat (.opt (.cat (strLit ":" false) (.rep digitChar 2 (some 2))))
       (.cat (.rep wsChar 0 none) (.alt (strLit "am" true) (strLit "pm" true)))))

/-- Second time pattern: digits, optional whitespace, meridiem marker. -/
def timePat2 : RE :=
  .grp (.cat (.rep digitChar 1 (some 2))
       (.cat (.rep wsChar 0 none) (.alt (strLit "am" true) (strLit "pm" true))))

/-- Third time pattern: a bare hour-colon-minutes form. -/
def timePat3 : RE :=
  .grp (.cat (.rep digitChar 1 (some 2)) (.cat (strLit ":" false) (.rep digitChar 2 (some 2))))

/-- Validation applied by route.ts to a candidate name capture: trim it,
require at least two characters and require that it pass the test
against the class of letters and spaces. -/
def validName (cap : List Char) : Option (List Char) :=
  let n := trimJs cap
  if 2 ≤ n.length then
    if !n.isEmpty && n.all nameChar then some n else none
  else none

/-- Name extraction for one message: the three patterns are tried in
order, and a pattern that matches but fails validation falls through to
the next pattern, exactly as the loop with the inner check does in the
source. -/
def extractNameMsg (content : List Char) : Option (List Char) :=
  ((searchFrom namePat1 content).bind validName) <|>
  ((matchFull namePat2core content).bind validName) <|>
  ((searchFrom namePat2core content).bind validName)

/-- Phone extraction for one message: first structural match among the
four patterns wins. -/
def extractPhoneMsg (content : List Char) : Option (List Char) :=
  searchFrom phonePat1 content <|> searchFrom phonePat2 content <|>
  searchFrom phonePat3 content <|> searchFrom phonePat4 content

/-- Email extraction for one message. -/
def extractEmailMsg (content : List Char) : Option (List Char) :=
  searchFrom emailPat content

/-- Time extraction for one message. -/
def extractTimeMsg (content : List Char) : Option (List Char) :=
  searchFrom timePat1 content <|> searchFrom timePat2 content <|>
  searchFrom timePat3 content

/-- Service keyword table of route.ts, in object-entry order. -/
def serviceKeywords : List (String × List String) :=
  [("cleaning", ["cleaning", "clean"]),
   ("checkup", ["checkup", "check-up", "check up", "examination"]),
   ("whitening", ["whitening", "whiten", "bleaching"]),
   ("filling", ["filling", "cavity", "drill"]),
   ("emergency", ["emergency", "urgent", "pain", "broken tooth"])]

/-- First service category any of whose synonyms occurs in the
lower-cased message. -/
def findService (lower : String) : Option String :=
  (serviceKeywords.find? fun e => e.2.any fun k => includesStr k lower).map fun e => e.1

/-- Date vocabulary of route.ts, in array order. -/
def dateKeywords : List String :=
  ["monday", "tuesday", "wednesday", "thursday", "friday", "tomorrow", "next week"]

/-- First date keyword occurring in the lower-cased message. -/
def findDate (lower : String) : Option String :=
  dateKeywords.find? fun k => includesStr k lower

/-- Initial record of extractBookingState before any message is read. -/
def initState : BookingState :=
  { step := 1, patientName := "", phoneNumber := "", email := "",
    serviceType := "", preferredDate := "", preferredTime := "",
    urgency := "routine", additionalNotes := "", isComplete := false }

/-- Name block of the extraction loop: fill the name only while empty. -/
def stepNameF (st : BookingState) (content : String) : BookingState :=
  if st.patientName = "" then
    match extractNameMsg content.data with
    | some n => { st with patientName := String.mk n }
    | none => st
  else st

/-- Phone block of the extraction loop. -/
def stepPhoneF (st : BookingState) (content : String) : BookingState :=
  if st.phoneNumber = "" then
    match extractPhoneMsg content.data with
    | some v => { st with phoneNumber := String.mk v }
    | none => st
  else st

/-- Email block of the extraction loop. -/
def stepEmailF (st : BookingState) (content : String) : BookingState :=
  if st.email = "" then
    match extractEmailMsg content.data with
    | some v => { st with email := String.mk v }
    | none => st
  else st

/-- Service block of the extraction loop: the selected category is
stored and, when that category is the emergency one, the urgency is
raised at the same time. -/
def stepServiceF (st : BookingState) (content : String) : BookingState :=
  if st.serviceType = "" then
    match findService (toLowerStr content) with
    | some s =>
      { st with serviceType := s,
                urgency := if s = "emergency" then "emergency" else st.urgency }
    | none => st
  else st

/-- Date block of the extraction loop. -/
def stepDateF (st : BookingState) (content : String) : BookingState :=
  if st.preferredDate = "" then
    match findDate (toLowerStr content) with
    | some k => { st with preferredDate := k }
    | none => st
  else st

/-- Time block of the extraction loop. -/
def stepTimeF (st : BookingState) (content : String) : BookingState :=
  if st.preferredTime = "" then
    match extractTimeMsg content.data with
    | some v => { st with preferredTime := String.mk v }
    | none => st
  else st

/-- One iteration of the extraction loop: the six blocks run in the
order of the source. -/
def processMsg (st : BookingState) (content : String) : BookingState :=
  stepTimeF (stepDateF (stepServiceF (stepEmailF (stepPhoneF (stepNameF st content)
    content) content) content) content) content

/-- The extraction loop over a message list. -/
def foldProc (st : BookingState) (l : List ChatMessage) : BookingState :=
  l.foldl (fun s m => processMsg s m.content) st

/-- The user-authored sublist of a conversation, as filtered in
extractBookingState. -/
def userMessages (messages : List ChatMessage) : List ChatMessage :=
  messages.filter fun m => m.role == "user"

/-- determineCurrentStep of route.ts: the ordinal of the first empty
field in the fixed order, or seven when all six fields are filled. -/
def determineCurrentStep (st : BookingState) : Nat :=
  if st.patientName = "" then 1
  else if st.phoneNumber = "" then 2
  else if st.email = "" then 3
  else if st.serviceType = "" then 4
  else if st.preferredDate = "" then 5
  else if st.preferredTime = "" then 6
  else 7

/-- Final assignments of extractBookingState: store the computed step
and derive the completion flag from it. -/
def finishState (st : BookingState) : BookingState :=
  { st with step := determineCurrentStep st,
            isComplete := decide (7 < determineCurrentStep st) }

/-- extractBookingState of route.ts. -/
def extractBookingState (messages : List ChatMessage) : BookingState :=
  finishState (foldProc initState (userMessages messages))

/-- Merge step of updateBookingState: each field is taken from the
freshly extracted record when that record has it, and otherwise kept
from the current record; urgency, step and the completion flag are
carried over from the current record unchanged at this point. -/
def orStr (a b : String) : String := if a = "" then b else a

/-- Field merge of updateBookingState. -/
def mergeState (cur fresh : BookingState) : BookingState :=
  { cur with
    patientName := orStr fresh.patientName cur.patientName,
    phoneNumber := orStr fresh.phoneNumber cur.phoneNumber,
    email := orStr fresh.email cur.email,
    serviceType := orStr fresh.serviceType cur.serviceType,
    preferredDate := orStr fresh.preferredDate cur.preferredDate,
    preferredTime := orStr fresh.preferredTime cur.preferredTime }

/-- Step recomputation of updateBookingState. -/
def setStep (st : BookingState) : BookingState :=
  { st with step := determineCurrentStep st }

/-- Affirmative-token test of updateBookingState, applied to the
lower-cased latest message. -/
def tokenAffirm (content : String) : Bool :=
  includesStr "yes" content || includesStr "confirm" content ||
  includesStr "book it" content || includesStr "correct" content

/-- Completion decision of updateBookingState. -/
def applyConfirm (content : String) (ns : BookingState) : BookingState :=
  if tokenAffirm content && decide (7 ≤ ns.step) then { ns with isComplete := true }
  else ns

/-- updateBookingState of route.ts. -/
def updateBookingState (currentState : BookingState) (latestMessage : String)
    (allMessages : List ChatMessage) : BookingState :=
  applyConfirm (toLowerStr latestMessage)
    (setStep (mergeState currentState (extractBookingState allMessages)))

/-- Step function written from the words of the specification: scan the
fields in the fixed order name, phone, email, service, date, time and
return the one-based ordinal of the first empty field, or seven when
all six are filled. -/
def firstEmptyStep (st : BookingState) : Nat :=
  if st.patientName = "" then 1
  else if st.phoneNumber = "" then 2
  else if st.email = "" then 3
  else if st.serviceType = "" then 4
  else if st.preferredDate = "" then 5
  else if st.preferredTime = "" then 6
  else 7

/-- Pointwise filledness order on the six extracted fields. -/
def fieldsLe (a b : BookingState) : Prop :=
  (a.patientName ≠ "" → b.patientName ≠ "") ∧
  (a.phoneNumber ≠ "" → b.phoneNumber ≠ "") ∧
  (a.email ≠ "" → b.email ≠ "") ∧
  (a.serviceType ≠ "" → b.serviceType ≠ "") ∧
  (a.preferredDate ≠ "" → b.preferredDate ≠ "") ∧
  (a.preferredTime ≠ "" → b.preferredTime ≠ "")

/-- Relation between the stored service type and the urgency marker that
the extraction loop maintains. -/
def urgInv (st : BookingState) : Prop :=
  (st.serviceType = "emergency" → st.urgency = "emergency") ∧
  (st.serviceType ≠ "emergency" → st.urgency = "routine")

/-- State in which the emergency service has been selected together
with the emergency urgency. -/
def emergSet (st : BookingState) : Prop :=
  st.serviceType = "emergency" ∧ st.urgency = "emergency"

/-- Well-formedness of a booking record as observable by the consumers
of the extractor: the step lies within the seven-step flow and the
urgency is one of its two values. -/
def wellFormed (st : BookingState) : Prop :=
  1 ≤ st.step ∧ st.step ≤ 7 ∧
  (st.urgency = "routine" ∨ st.urgency = "emergency")

/-- Every service synonym of the four categories that precede the
emergency category in the keyword table. -/
def otherServiceKeywords : List String :=
  ["cleaning", "clean", "checkup", "check-up", "check up", "examination",
   "whitening", "whiten", "bleaching", "filling", "cavity", "drill"]

/-- Six-message conversation filling all six fields, followed by an
affirmative seventh message, following the test vectors of the
specification. -/
def conv7 : List ChatMessage :=
  [⟨"user", "John Smith"⟩, ⟨"user", "5551234567"⟩, ⟨"user", "a@b.co"⟩,
   ⟨"user", "cleaning"⟩, ⟨"user", "monday"⟩, ⟨"user", "4 pm"⟩,
   ⟨"user", "yes, confirm"⟩]

/-- Two-message conversation restating the name, from the locking test
vector of the specification. -/
def annaConv : List ChatMessage :=
  [⟨"user", "My name is Anna"⟩, ⟨"user", "Actually call me Bob"⟩]

/-- Conversation that selects the cleaning service before a message
mentioning a broken tooth arrives. -/
def serviceCexConv : List ChatMessage :=
  [⟨"user", "i need a cleaning"⟩, ⟨"user", "i have a broken tooth"⟩]

theorem stepNameF_locked (st : BookingState) (c : String) (h : st.patientName ≠ "") :
    stepNameF st c = st := by
  unfold stepNameF; rw [if_neg h]

theorem stepPhoneF_locked (st : BookingState) (c : String) (h : st.phoneNumber ≠ "") :
    stepPhoneF st c = st := by
  unfold stepPhoneF; rw [if_neg h]

theorem stepEmailF_locked (st : BookingState) (c : String) (h : st.email ≠ "") :
    stepEmailF st c = st := by
  unfold stepEmailF; rw [if_neg h]

theorem stepServiceF_locked (st : BookingState) (c : String) (h : st.serviceType ≠ "") :
    stepServiceF st c = st := by
  unfold stepServiceF; rw [if_neg h]

theorem stepDateF_locked (st : BookingState) (c : String) (h : st.preferredDate ≠ "") :
    stepDateF st c = st := by
  unfold stepDateF; rw [if_neg h]

theorem stepTimeF_locked (st : BookingState) (c : String) (h : st.preferredTime ≠ "") :
    stepTimeF st c = st := by
  unfold stepTimeF; rw [if_neg h]

theorem stepNameF_phoneNumber (st : BookingState) (c : String) :
    (stepNameF st c).phoneNumber = st.phoneNumber := by
  unfold stepNameF; split <;> try rfl
  split <;> rfl

theorem stepNameF_email (st : BookingState) (c : String) :
    (stepNameF st c).email = st.email := by
  unfold stepNameF; split <;> try rfl
  split <;> rfl

theorem stepNameF_serviceType (st : BookingState) (c : String) :
    (stepNameF st c).serviceType = st.serviceType := by
  unfold stepNameF; split <;> try rfl
  split <;> rfl

theorem stepNameF_preferredDate (st : BookingState) (c : String) :
    (stepNameF st c).preferredDate = st.preferredDate := by
  unfold stepNameF; split <;> try rfl
  split <;> rfl

theorem stepNameF_preferredTime (st : BookingState) (c : String) :
    (stepNameF st c).preferredTime = st.preferredTime := by
  unfold stepNameF; split <;> try rfl
  split <;> rfl

theorem stepNameF_urgency (st : BookingState) (c : String) :
    (stepNameF st c).urgency = st.urgency := by
  unfold stepNameF; split <;> try rfl
  split <;> rfl

theorem stepPhoneF_patientName (st : BookingState) (c : String) :
    (stepPhoneF st c).patientName = st.patientName := by
  unfold stepPhoneF; split <;> try rfl
  split <;> rfl

theorem stepPhoneF_email (st : BookingState) (c : String) :
    (stepPhoneF st c).email = st.email := by
  unfold stepPhoneF; split <;> try rfl
  split <;> rfl

theorem stepPhoneF_serviceType (st : BookingState) (c : String) :
    (stepPhoneF st c).serviceType = st.serviceType := by
  unfold stepPhoneF; split <;> try rfl
  split <;> rfl

theorem stepPhoneF_preferredDate (st : BookingState) (c : String) :
    (stepPhoneF st c).preferredDate = st.preferredDate := by
  unfold stepPhoneF; split <;> try rfl
  split <;> rfl

theorem stepPhoneF_preferredTime (st : BookingState) (c : String) :
    (stepPhoneF st c).preferredTime = st.preferredTime := by
  unfold stepPhoneF; split <;> try rfl
  split <;> rfl

theorem stepPhoneF_urgency (st : BookingState) (c : String) :
    (stepPhoneF st c).urgency = st.urgency := by
  unfold stepPhoneF; split <;> try rfl
  split <;> rfl

theorem stepEmailF_patientName (st : BookingState) (c : String) :
    (stepEmailF st c).patientName = st.patientName := by
  unfold stepEmailF; split <;> try rfl
  split <;> rfl

theorem stepEmailF_phoneNumber (st : BookingState) (c : String) :
    (stepEmailF st c).phoneNumber = st.phoneNumber := by
  unfold stepEmailF; split <;> try rfl
  split <;> rfl

theorem stepEmailF_serviceType (st : BookingState) (c : String) :
    (stepEmailF st c).serviceType = st.serviceType := by
  unfold stepEmailF; split <;> try rfl
  split <;> rfl

theorem stepEmailF_preferredDate (st : BookingState) (c : String) :
    (stepEmailF st c).preferredDate = st.preferredDate := by
  unfold stepEmailF; split <;> try rfl
  split <;> rfl

theorem stepEmailF_preferredTime (st : BookingState) (c : String) :
    (stepEmailF st c).preferredTime = st.preferredTime := by
  unfold stepEmailF; split <;> try rfl
  split <;> rfl

theorem stepEmailF_urgency (st : BookingState) (c : String) :
    (stepEmailF st c).urgency = st.urgency := by
  unfold stepEmailF; split <;> try rfl
  split <;> rfl

theorem stepServiceF_patientName (st : BookingState) (c : String) :
    (stepServiceF st c).patientName = st.patientName := by
  unfold stepServiceF; split <;> try rfl
  split <;> rfl

theorem stepServiceF_phoneNumber (st : BookingState) (c : String) :
    (stepServiceF st c).phoneNumber = st.phoneNumber := by
  unfold stepServiceF; split <;> try rfl
  split <;> rfl

theorem stepServiceF_email (st : BookingState) (c : String) :
    (stepServiceF st c).email = st.email := by
  unfold stepServiceF; split <;> try rfl
  split <;> rfl

theorem stepServiceF_preferredDate (st : BookingState) (c : String) :
    (stepServiceF st c).preferredDate = st.preferredDate := by
  unfold stepServiceF; split <;> try rfl
  split <;> rfl

theorem stepServiceF_preferredTime (st : BookingState) (c : String) :
    (stepServiceF st c).preferredTime = st.preferredTime := by
  unfold stepServiceF; split <;> try rfl
  split <;> rfl

theorem stepDateF_patientName (st : BookingState) (c : String) :
    (stepDateF st c).patientName = st.patientName := by
  unfold stepDateF; split <;> try rfl
  split <;> rfl

theorem stepDateF_phoneNumber (st : BookingState) (c : String) :
    (stepDateF st c).phoneNumber = st.phoneNumber := by
  unfold stepDateF; split <;> try rfl
  split <;> rfl

theorem stepDateF_email (st : BookingState) (c : String) :
    (stepDateF st c).email = st.email := by
  unfold stepDateF; split <;> try rfl
  split <;> rfl

theorem stepDateF_serviceType (st : BookingState) (c : String) :
    (stepDateF st c).serviceType = st.serviceType := by
  unfold stepDateF; split <;> try rfl
  split <;> rfl

theorem stepDateF_preferredTime (st : BookingState) (c : String) :
    (stepDateF st c).preferredTime = st.preferredTime := by
  unfold stepDateF; split <;> try rfl
  split <;> rfl

theorem stepDateF_urgency (st : BookingState) (c : String) :
    (stepDateF st c).urgency = st.urgency := by
  unfold stepDateF; split <;> try rfl
  split <;> rfl

theorem stepTimeF_patientName (st : BookingState) (c : String) :
    (stepTimeF st c).patientName = st.patientName := by
  unfold stepTimeF; split <;> try rfl
  split <;> rfl

theorem stepTimeF_phoneNumber (st : BookingState) (c : String) :
    (stepTimeF st c).phoneNumber = st.phoneNumber := by
  unfold stepTimeF; split <;> try rfl
  split <;> rfl

theorem stepTimeF_email (st : BookingState) (c : String) :
    (stepTimeF st c).email = st.email := by
  unfold stepTimeF; split <;> try rfl
  split <;> rfl

theorem stepTimeF_serviceType (st : BookingState) (c : String) :
    (stepTimeF st c).serviceType = st.serviceType := by
  unfold stepTimeF; split <;> try rfl
  split <;> rfl

theorem stepTimeF_preferredDate (st : BookingState) (c : String) :
    (stepTimeF st c).preferredDate = st.preferredDate := by
  unfold stepTimeF; split <;> try rfl
  split <;> rfl

theorem stepTimeF_urgency (st : BookingState) (c : String) :
    (stepTimeF st c).urgency = st.urgency := by
  unfold stepTimeF; split <;> try rfl
  split <;> rfl

theorem processMsg_keep_name (st : BookingState) (c : String) (h : st.patientName ≠ "") :
    (processMsg st c).patientName = st.patientName := by
  unfold processMsg
  rw [stepTimeF_patientName, stepDateF_patientName, stepServiceF_patientName,
      stepEmailF_patientName, stepPhoneF_patientName, stepNameF_locked st c h]

theorem processMsg_keep_phone (st : BookingState) (c : String) (h : st.phoneNumber ≠ "") :
    (processMsg st c).phoneNumber = st.phoneNumber := by
  unfold processMsg
  rw [stepTimeF_phoneNumber, stepDateF_phoneNumber, stepServiceF_phoneNumber,
      stepEmailF_phoneNumber,
      stepPhoneF_locked _ c (by rw [stepNameF_phoneNumber]; exact h),
      stepNameF_phoneNumber]

theorem processMsg_keep_email (st : BookingState) (c : String) (h : st.email ≠ "") :
    (processMsg st c).email = st.email := by
  unfold processMsg
  rw [stepTimeF_email, stepDateF_email, stepServiceF_email,
      stepEmailF_locked _ c (by rw [stepPhoneF_email, stepNameF_email]; exact h),
      stepPhoneF_email, stepNameF_email]

theorem processMsg_keep_service (st : BookingState) (c : String) (h : st.serviceType ≠ "") :
    (processMsg st c).serviceType = st.serviceType := by
  unfold processMsg
  rw [stepTimeF_serviceType, stepDateF_serviceType,
      stepServiceF_locked _ c
        (by rw [stepEmailF_serviceType, stepPhoneF_serviceType, stepNameF_serviceType]; exact h),
      stepEmailF_serviceType, stepPhoneF_serviceType, stepNameF_serviceType]

theorem processMsg_keep_date (st : BookingState) (c : String) (h : st.preferredDate ≠ "") :
    (processMsg st c).preferredDate = st.preferredDate := by
  unfold processMsg
  rw [stepTimeF_preferredDate,
      stepDateF_locked _ c
        (by rw [stepServiceF_preferredDate, stepEmailF_preferredDate,
                stepPhoneF_preferredDate, stepNameF_preferredDate]; exact h),
      stepServiceF_preferredDate, stepEmailF_preferredDate,
      stepPhoneF_preferredDate, stepNameF_preferredDate]

theorem processMsg_keep_time (st : BookingState) (c : String) (h : st.preferredTime ≠ "") :
    (processMsg st c).preferredTime = st.preferredTime := by
  unfold processMsg
  rw [stepTimeF_locked _ c
        (by rw [stepDateF_preferredTime, stepServiceF_preferredTime, stepEmailF_preferredTime,
                stepPhoneF_preferredTime, stepNameF_preferredTime]; exact h),
      stepDateF_preferredTime, stepServiceF_preferredTime, stepEmailF_preferredTime,
      stepPhoneF_preferredTime, stepNameF_preferredTime]

theorem foldProc_cons (st : BookingState) (m : ChatMessage) (t : List ChatMessage) :
    foldProc st (m :: t) = foldProc (processMsg st m.content) t := by
  simp only [foldProc, List.foldl_cons]

theorem foldProc_keep_name :
    ∀ (l : List ChatMessage) (st : BookingState), st.patientName ≠ "" →
      (foldProc st l).patientName = st.patientName
  | [], _, _ => rfl
  | m :: t, st, h => by
    rw [foldProc_cons]
    have h1 := processMsg_keep_name st m.content h
    rw [foldProc_keep_name t _ (by rw [h1]; exact h), h1]

theorem foldProc_keep_phone :
    ∀ (l : List ChatMessage) (st : BookingState), st.phoneNumber ≠ "" →
      (foldProc st l).phoneNumber = st.phoneNumber
  | [], _, _ => rfl
  | m :: t, st, h => by
    rw [foldProc_cons]
    have h1 := processMsg_keep_phone st m.content h
    rw [foldProc_keep_phone t _ (by rw [h1]; exact h), h1]

theorem foldProc_keep_email :
    ∀ (l : List ChatMessage) (st : BookingState), st.email ≠ "" →
      (foldProc st l).email = st.email
  | [], _, _ => rfl
  | m :: t, st, h => by
    rw [foldProc_cons]
    have h1 := processMsg_keep_email st m.content h
    rw [foldProc_keep_email t _ (by rw [h1]; exact h), h1]

theorem foldProc_keep_service :
    ∀ (l : List ChatMessage) (st : BookingState), st.serviceType ≠ "" →
      (foldProc st l).serviceType = st.serviceType
  | [], _, _ => rfl
  | m :: t, st, h => by
    rw [foldProc_cons]
    have h1 := processMsg_keep_service st m.content h
    rw [foldProc_keep_service t _ (by rw [h1]; exact h), h1]

theorem foldProc_keep_date :
    ∀ (l : List ChatMessage) (st : BookingState), st.preferredDate ≠ "" →
      (foldProc st l).preferredDate = st.preferredDate
  | [], _, _ => rfl
  | m :: t, st, h => by
    rw [foldProc_cons]
    have h1 := processMsg_keep_date st m.content h
    rw [foldProc_keep_date t _ (by rw [h1]; exact h), h1]

theorem foldProc_keep_time :
    ∀ (l : List ChatMessage) (st : BookingState), st.preferredTime ≠ "" →
      (foldProc st l).preferredTime = st.preferredTime
  | [], _, _ => rfl
  | m :: t, st, h => by
    rw [foldProc_cons]
    have h1 := processMsg_keep_time st m.content h
    rw [foldProc_keep_time t _ (by rw [h1]; exact h), h1]

theorem determineCurrentStep_range (st : BookingState) :
    1 ≤ determineCurrentStep st ∧ determineCurrentStep st ≤ 7 := by
  unfold determineCurrentStep
  split_ifs <;> omega

set_option maxHeartbeats 1000000 in
theorem determineCurrentStep_mono (a b : BookingState) (h : fieldsLe a b) :
    determineCurrentStep a ≤ determineCurrentStep b := by
  obtain ⟨h1, h2, h3, h4, h5, h6⟩ := h
  unfold determineCurrentStep
  split_ifs <;> first | omega | tauto

theorem finishState_patientName (st : BookingState) :
    (finishState st).patientName = st.patientName := rfl

theorem finishState_phoneNumber (st : BookingState) :
    (finishState st).phoneNumber = st.phoneNumber := rfl

theorem finishState_email (st : BookingState) :
    (finishState st).email = st.email := rfl

theorem finishState_serviceType (st : BookingState) :
    (finishState st).serviceType = st.serviceType := rfl

theorem finishState_preferredDate (st : BookingState) :
    (finishState st).preferredDate = st.preferredDate := rfl

theorem finishState_preferredTime (st : BookingState) :
    (finishState st).preferredTime = st.preferredTime := rfl

theorem finishState_urgency (st : BookingState) :
    (finishState st).urgency = st.urgency := rfl

theorem finishState_step (st : BookingState) :
    (finishState st).step = determineCurrentStep st := rfl

theorem finishState_isComplete (st : BookingState) :
    (finishState st).isComplete = decide (7 < determineCurrentStep st) := rfl

theorem determineCurrentStep_finish (st : BookingState) :
    determineCurrentStep (finishState st) = determineCurrentStep st := rfl

theorem extract_def (messages : List ChatMessage) :
    extractBookingState messages = finishState (foldProc initState (userMessages messages)) := rfl

theorem processMsg_service_char (st : BookingState) (c : String) :
    (st.serviceType ≠ "" ∧ (processMsg st c).serviceType = st.serviceType ∧
      (processMsg st c).urgency = st.urgency) ∨
    (st.serviceType = "" ∧ findService (toLowerStr c) = none ∧
      (processMsg st c).serviceType = st.serviceType ∧
      (processMsg st c).urgency = st.urgency) ∨
    (st.serviceType = "" ∧ ∃ s, findService (toLowerStr c) = some s ∧
      (processMsg st c).serviceType = s ∧
      (processMsg st c).urgency = (if s = "emergency" then "emergency" else st.urgency)) := by
  have e1 : (stepEmailF (stepPhoneF (stepNameF st c) c) c).serviceType = st.serviceType := by
    rw [stepEmailF_serviceType, stepPhoneF_serviceType, stepNameF_serviceType]
  have e2 : (stepEmailF (stepPhoneF (stepNameF st c) c) c).urgency = st.urgency := by
    rw [stepEmailF_urgency, stepPhoneF_urgency, stepNameF_urgency]
  unfold processMsg
  rw [stepTimeF_serviceType, stepDateF_serviceType, stepTimeF_urgency, stepDateF_urgency]
  generalize hG : stepEmailF (stepPhoneF (stepNameF st c) c) c = st3
  rw [hG] at e1 e2
  by_cases hsv : st.serviceType = ""
  · have h3 : st3.serviceType = "" := by rw [e1]; exact hsv
    unfold stepServiceF
    rw [if_pos h3]
    cases hf : findService (toLowerStr c) with
    | none => exact Or.inr (Or.inl ⟨hsv, rfl, e1, e2⟩)
    | some s =>
      refine Or.inr (Or.inr ⟨hsv, s, rfl, rfl, ?_⟩)
      show (if s = "emergency" then "emergency" else st3.urgency) = _
      rw [e2]
  · have h3 : st3.serviceType ≠ "" := by rw [e1]; exact hsv
    rw [stepServiceF_locked st3 c h3]
    exact Or.inl ⟨hsv, e1, e2⟩

theorem urgInv_processMsg (st : BookingState) (c : String) (h : urgInv st) :
    urgInv (processMsg st c) := by
  rcases processMsg_service_char st c with ⟨_, hs, hu⟩ | ⟨_, _, hs, hu⟩ |
      ⟨hempty, s, _, hs, hu⟩
  · exact ⟨fun hx => by rw [hu]; exact h.1 (by rw [← hs]; exact hx),
      fun hx => by rw [hu]; exact h.2 (by rw [← hs]; exact hx)⟩
  · exact ⟨fun hx => by rw [hu]; exact h.1 (by rw [← hs]; exact hx),
      fun hx => by rw [hu]; exact h.2 (by rw [← hs]; exact hx)⟩
  · by_cases hse : s = "emergency"
    · constructor
      · intro _; rw [hu, if_pos hse]
      · intro hx; exact absurd (by rw [hs, hse]) hx
    · constructor
      · intro hx; rw [hs] at hx; exact absurd hx hse
      · intro _
        rw [hu, if_neg hse]
        exact h.2 (by rw [hempty]; decide)

theorem urgInv_foldProc :
    ∀ (l : List ChatMessage) (st : BookingState), urgInv st → urgInv (foldProc st l)
  | [], _, h => h
  | m :: t, st, h => by
    rw [foldProc_cons]
    exact urgInv_foldProc t _ (urgInv_processMsg st m.content h)

theorem urgInv_init : urgInv initState := by
  constructor
  · intro h; exact absurd h (by decide)
  · intro _; rfl

theorem urgInv_extract (messages : List ChatMessage) :
    urgInv (extractBookingState messages) := by
  rw [extract_def]
  have h := urgInv_foldProc (userMessages messages) initState urgInv_init
  exact ⟨fun hx => by rw [finishState_urgency]; exact h.1 (by rw [← finishState_serviceType]; exact hx),
    fun hx => by rw [finishState_urgency]; exact h.2 (by rw [← finishState_serviceType]; exact hx)⟩

theorem userMessages_idem (messages : List ChatMessage) :
    userMessages (userMessages messages) = userMessages messages := by
  induction messages with
  | nil => rfl
  | cons m t ih =>
    simp only [userMessages, List.filter_cons] at ih ⊢
    by_cases h : (m.role == "user") = true
    · rw [if_pos h]
      simp only [List.filter_cons]
      rw [if_pos h]
      exact congrArg (m :: ·) ih
    · rw [if_neg h]
      exact ih

theorem userMessages_append (l1 l2 : List ChatMessage) :
    userMessages (l1 ++ l2) = userMessages l1 ++ userMessages l2 := by
  simp [userMessages, List.filter_append]

theorem foldProc_append (st : BookingState) (l1 l2 : List ChatMessage) :
    foldProc st (l1 ++ l2) = foldProc (foldProc st l1) l2 := by
  simp [foldProc, List.foldl_append]

theorem firstEmptyStep_eq (st : BookingState) :
    firstEmptyStep st = determineCurrentStep st := rfl

theorem determineCurrentStep_filled (st : BookingState)
    (h1 : st.patientName ≠ "") (h2 : st.phoneNumber ≠ "") (h3 : st.email ≠ "")
    (h4 : st.serviceType ≠ "") (h5 : st.preferredDate ≠ "") (h6 : st.preferredTime ≠ "") :
    determineCurrentStep st = 7 := by
  unfold determineCurrentStep
  rw [if_neg h1, if_neg h2, if_neg h3, if_neg h4, if_neg h5, if_neg h6]

theorem setStep_step (st : BookingState) :
    (setStep st).step = determineCurrentStep st := rfl

theorem setStep_isComplete (st : BookingState) :
    (setStep st).isComplete = st.isComplete := rfl

theorem setStep_fields (st : BookingState) :
    (setStep st).patientName = st.patientName ∧ (setStep st).phoneNumber = st.phoneNumber ∧
    (setStep st).email = st.email ∧ (setStep st).serviceType = st.serviceType ∧
    (setStep st).preferredDate = st.preferredDate ∧ (setStep st).preferredTime = st.preferredTime :=
  ⟨rfl, rfl, rfl, rfl, rfl, rfl⟩

theorem mergeState_isComplete (cur fresh : BookingState) :
    (mergeState cur fresh).isComplete = cur.isComplete := rfl

theorem applyConfirm_step (content : String) (ns : BookingState) :
    (applyConfirm content ns).step = ns.step := by
  unfold applyConfirm; split <;> rfl

theorem applyConfirm_fields (content : String) (ns : BookingState) :
    (applyConfirm content ns).patientName = ns.patientName ∧
    (applyConfirm content ns).phoneNumber = ns.phoneNumber ∧
    (applyConfirm content ns).email = ns.email ∧
    (applyConfirm content ns).serviceType = ns.serviceType ∧
    (applyConfirm content ns).preferredDate = ns.preferredDate ∧
    (applyConfirm content ns).preferredTime = ns.preferredTime := by
  unfold applyConfirm; split <;> exact ⟨rfl, rfl, rfl, rfl, rfl, rfl⟩

theorem applyConfirm_complete (content : String) (ns : BookingState)
    (ht : tokenAffirm content = true) (hs : 7 ≤ ns.step) :
    (applyConfirm content ns).isComplete = true := by
  unfold applyConfirm
  rw [if_pos (by rw [ht, decide_eq_true hs]; rfl)]

theorem extract_isComplete_false (messages : List ChatMessage) :
    (extractBookingState messages).isComplete = false := by
  rw [extract_def, finishState_isComplete]
  have h := determineCurrentStep_range (foldProc initState (userMessages messages))
  exact decide_eq_false (by omega)

theorem emergSet_processMsg (st : BookingState) (c : String) (h : emergSet st) :
    emergSet (processMsg st c) := by
  obtain ⟨hs, hu⟩ := h
  rcases processMsg_service_char st c with ⟨_, h1, h2⟩ | ⟨hempty, _⟩ | ⟨hempty, _⟩
  · exact ⟨by rw [h1, hs], by rw [h2, hu]⟩
  · rw [hs] at hempty; exact absurd hempty (by decide)
  · rw [hs] at hempty; exact absurd hempty (by decide)

theorem emergSet_foldProc :
    ∀ (l : List ChatMessage) (st : BookingState), emergSet st → emergSet (foldProc st l)
  | [], _, h => h
  | m :: t, st, h => by
    rw [foldProc_cons]
    exact emergSet_foldProc t _ (emergSet_processMsg st m.content h)

theorem findService_restricted (lower : String)
    (h : ∀ k ∈ otherServiceKeywords, includesStr k lower = false) :
    findService lower = none ∨ findService lower = some "emergency" := by
  have c1 := h "cleaning" (by decide)
  have c2 := h "clean" (by decide)
  have c3 := h "checkup" (by decide)
  have c4 := h "check-up" (by decide)
  have c5 := h "check up" (by decide)
  have c6 := h "examination" (by decide)
  have c7 := h "whitening" (by decide)
  have c8 := h "whiten" (by decide)
  have c9 := h "bleaching" (by decide)
  have c10 := h "filling" (by decide)
  have c11 := h "cavity" (by decide)
  have c12 := h "drill" (by decide)
  unfold findService serviceKeywords
  simp only [List.find?, List.any_cons, List.any_nil,
    c1, c2, c3, c4, c5, c6, c7, c8, c9, c10, c11, c12,
    Bool.or_false, Bool.false_or]
  cases hE : (includesStr "emergency" lower || (includesStr "urgent" lower ||
      (includesStr "pain" lower || includesStr "broken tooth" lower))) with
  | false => exact Or.inl rfl
  | true => exact Or.inr rfl

theorem findService_bt (lower : String)
    (h : ∀ k ∈ otherServiceKeywords, includesStr k lower = false)
    (hb : includesStr "broken tooth" lower = true) :
    findService lower = some "emergency" := by
  rcases findService_restricted lower h with hn | he
  · exfalso
    unfold findService serviceKeywords at hn
    simp only [List.find?, List.any_cons, List.any_nil,
      h "cleaning" (by decide), h "clean" (by decide), h "checkup" (by decide),
      h "check-up" (by decide), h "check up" (by decide), h "examination" (by decide),
      h "whitening" (by decide), h "whiten" (by decide), h "bleaching" (by decide),
      h "filling" (by decide), h "cavity" (by decide), h "drill" (by decide),
      hb, Bool.or_false, Bool.false_or, Bool.or_true] at hn
    exact absurd hn (by simp)
  · exact he

theorem foldProc_bt :
    ∀ (l : List ChatMessage) (st : BookingState),
      (∀ m ∈ l, ∀ k ∈ otherServiceKeywords, includesStr k (toLowerStr m.content) = false) →
      st.serviceType = "" →
      (∃ m ∈ l, includesStr "broken tooth" (toLowerStr m.content) = true) →
      emergSet (foldProc st l)
  | [], _, _, _, hex => by
    rcases hex with ⟨m, hm, _⟩
    exact absurd hm (List.not_mem_nil m)
  | m :: t, st, hall, hempty, hex => by
    rw [foldProc_cons]
    have hallm := hall m (List.mem_cons_self m t)
    have hallt : ∀ x ∈ t, ∀ k ∈ otherServiceKeywords,
        includesStr k (toLowerStr x.content) = false :=
      fun x hx => hall x (List.mem_cons_of_mem m hx)
    rcases processMsg_service_char st m.content with ⟨hne, _⟩ | ⟨_, hfnone, hs, _⟩ |
        ⟨_, s, hf, hs, hu⟩
    · exact absurd hempty hne
    · rcases hex with ⟨x, hx, hbx⟩
      rcases List.mem_cons.mp hx with hxm | hxt
      · subst hxm
        rw [findService_bt (toLowerStr x.content) hallm hbx] at hfnone
        cases hfnone
      · exact foldProc_bt t _ hallt (by rw [hs]; exact hempty) ⟨x, hxt, hbx⟩
    · have hse : s = "emergency" := by
        rcases findService_restricted (toLowerStr m.content) hallm with hn | he
        · rw [hn] at hf; cases hf
        · rw [he] at hf; exact (Option.some.injEq _ _ ▸ hf).symm
      apply emergSet_foldProc
      constructor
      · rw [hs, hse]
      · rw [hu, hse, if_pos rfl]

/-- C1: for every message list, the step of the record returned by
extractBookingState equals the one-based ordinal of the first empty
field in the fixed order name, phone, email, service, date, time, or
seven when all six fields are filled; and when the list contains no
user messages all six fields are empty and the step is one. -/
theorem claim_C1 :
    (∀ messages : List ChatMessage,
      (extractBookingState messages).step = firstEmptyStep (extractBookingState messages)) ∧
    (∀ messages : List ChatMessage, userMessages messages = [] →
      (extractBookingState messages).patientName = "" ∧
      (extractBookingState messages).phoneNumber = "" ∧
      (extractBookingState messages).email = "" ∧
      (extractBookingState messages).serviceType = "" ∧
      (extractBookingState messages).preferredDate = "" ∧
      (extractBookingState messages).preferredTime = "" ∧
      (extractBookingState messages).step = 1) := by
  constructor
  · intro messages
    rw [extract_def, finishState_step, firstEmptyStep_eq, determineCurrentStep_finish]
  · intro messages h
    rw [extract_def, h]
    decide

/-- Witness for C1: a conversation with a lone assistant message has no
user messages, and its record has all six fields empty and step one. -/
theorem claim_C1_witness :
    userMessages [ChatMessage.mk "assistant" "hi"] = [] ∧
    ((extractBookingState [ChatMessage.mk "assistant" "hi"]).patientName = "" ∧
     (extractBookingState [ChatMessage.mk "assistant" "hi"]).phoneNumber = "" ∧
     (extractBookingState [ChatMessage.mk "assistant" "hi"]).email = "" ∧
     (extractBookingState [ChatMessage.mk "assistant" "hi"]).serviceType = "" ∧
     (extractBookingState [ChatMessage.mk "assistant" "hi"]).preferredDate = "" ∧
     (extractBookingState [ChatMessage.mk "assistant" "hi"]).preferredTime = "" ∧
     (extractBookingState [ChatMessage.mk "assistant" "hi"]).step = 1) :=
  ⟨by decide, claim_C1.2 [ChatMessage.mk "assistant" "hi"] (by decide)⟩

/-- C5: extractBookingState is a deterministic pure function of its
input message list; it is embedded as a Lean function because the
source function reads nothing beyond its parameter, so two invocations
on the same message list always return identical records. -/
theorem claim_C5 :
    ∀ (messages1 messages2 : List ChatMessage), messages1 = messages2 →
      extractBookingState messages1 = extractBookingState messages2 := by
  intro m1 m2 h
  rw [h]

/-- Witness for C5 at the two-message locking conversation. -/
theorem claim_C5_witness :
    annaConv = annaConv ∧ extractBookingState annaConv = extractBookingState annaConv :=
  ⟨rfl, claim_C5 annaConv annaConv rfl⟩

/-- C6: assistant messages never influence extraction; the record of
any message list equals the record of its user-authored sublist, so
inserting or removing assistant messages anywhere leaves every field
and the step unchanged. -/
theorem claim_C6 :
    ∀ messages : List ChatMessage,
      extractBookingState messages = extractBookingState (userMessages messages) := by
  intro messages
  rw [extract_def, extract_def, userMessages_idem]

/-- C8: extraction is total and never signals failure; it is embedded
as a total function into BookingState rather than an option type
because no code path of the source throws, and every input yields a
well-formed record. -/
theorem claim_C8 :
    ∀ messages : List ChatMessage, wellFormed (extractBookingState messages) := by
  intro messages
  have hr := determineCurrentStep_range (foldProc initState (userMessages messages))
  have hu := urgInv_extract messages
  refine ⟨?_, ?_, ?_⟩
  · rw [extract_def, finishState_step]; exact hr.1
  · rw [extract_def, finishState_step]; exact hr.2
  · by_cases h : (extractBookingState messages).serviceType = "emergency"
    · exact Or.inr (hu.1 h)
    · exact Or.inl (hu.2 h)

/-- C9: the record returned by extractBookingState always has step in
the range one to seven and isComplete false, because the final
assignment compares the step against seven and the step never exceeds
seven. -/
theorem claim_C9 :
    ∀ messages : List ChatMessage,
      1 ≤ (extractBookingState messages).step ∧
      (extractBookingState messages).step ≤ 7 ∧
      (extractBookingState messages).isComplete = false := by
  intro messages
  have hr := determineCurrentStep_range (foldProc initState (userMessages messages))
  refine ⟨?_, ?_, ?_⟩
  · rw [extract_def, finishState_step]; exact hr.1
  · rw [extract_def, finishState_step]; exact hr.2
  · exact extract_isComplete_false messages

set_option maxRecDepth 100000 in
/-- C2: for every message list whose latest user message contains one
of the affirmative tokens as a case-insensitive substring and whose
recomputed step is at least seven, updateBookingState returns a record
with isComplete true; in particular this holds for the six-message
conversation filling all six fields followed by the affirmative
seventh message. -/
theorem claim_C2 :
    (∀ (messages : List ChatMessage) (u : ChatMessage),
      (userMessages messages).getLast? = some u →
      tokenAffirm (toLowerStr u.content) = true →
      7 ≤ (updateBookingState (extractBookingState messages) u.content messages).step →
      (updateBookingState (extractBookingState messages) u.content messages).isComplete
        = true) ∧
    (updateBookingState (extractBookingState conv7) "yes, confirm" conv7).isComplete
      = true := by
  constructor
  · intro messages u _ htok hstep
    unfold updateBookingState at hstep ⊢
    rw [applyConfirm_step] at hstep
    exact applyConfirm_complete _ _ htok hstep
  · decide

set_option maxRecDepth 100000 in
/-- Witness for C2 at the seven-message conversation. -/
theorem claim_C2_witness :
    (userMessages conv7).getLast? = some (ChatMessage.mk "user" "yes, confirm") ∧
    tokenAffirm (toLowerStr (ChatMessage.mk "user" "yes, confirm").content) = true ∧
    7 ≤ (updateBookingState (extractBookingState conv7)
          (ChatMessage.mk "user" "yes, confirm").content conv7).step ∧
    (updateBookingState (extractBookingState conv7)
      (ChatMessage.mk "user" "yes, confirm").content conv7).isComplete = true :=
  ⟨by decide, by decide, by decide,
   claim_C2.1 conv7 (ChatMessage.mk "user" "yes, confirm")
     (by decide) (by decide) (by decide)⟩

set_option maxRecDepth 100000 in
/-- Counterexample for C3: after the seven-message conversation the
updated record has isComplete true while its step is exactly seven, so
the step never advances past seven to an eighth value and completion is
decided at step seven, not after it. -/
theorem claim_C3_cex :
    (updateBookingState (extractBookingState conv7) "yes, confirm" conv7).isComplete
      = true ∧
    (updateBookingState (extractBookingState conv7) "yes, confirm" conv7).step = 7 := by
  decide

/-- C3 amended: the step field ranges over one to seven and reaches
seven once all six fields are filled; isComplete is true only when the
step equals seven and the latest message contains an affirmative
token. -/
theorem claim_C3_amended :
    ∀ (messages : List ChatMessage) (latest : String),
      (1 ≤ (updateBookingState (extractBookingState messages) latest messages).step ∧
       (updateBookingState (extractBookingState messages) latest messages).step ≤ 7) ∧
      ((updateBookingState (extractBookingState messages) latest messages).patientName ≠ "" →
       (updateBookingState (extractBookingState messages) latest messages).phoneNumber ≠ "" →
       (updateBookingState (extractBookingState messages) latest messages).email ≠ "" →
       (updateBookingState (extractBookingState messages) latest messages).serviceType ≠ "" →
       (updateBookingState (extractBookingState messages) latest messages).preferredDate ≠ "" →
       (updateBookingState (extractBookingState messages) latest messages).preferredTime ≠ "" →
       (updateBookingState (extractBookingState messages) latest messages).step = 7) ∧
      ((updateBookingState (extractBookingState messages) latest messages).isComplete
          = true →
        (updateBookingState (extractBookingState messages) latest messages).step = 7 ∧
        tokenAffirm (toLowerStr latest) = true) := by
  intro messages latest
  unfold updateBookingState
  have hr := determineCurrentStep_range
    (mergeState (extractBookingState messages) (extractBookingState messages))
  refine ⟨?_, ?_, ?_⟩
  · rw [applyConfirm_step, setStep_step]
    exact hr
  · intro h1 h2 h3 h4 h5 h6
    obtain ⟨f1, f2, f3, f4, f5, f6⟩ := applyConfirm_fields (toLowerStr latest)
      (setStep (mergeState (extractBookingState messages) (extractBookingState messages)))
    obtain ⟨g1, g2, g3, g4, g5, g6⟩ := setStep_fields
      (mergeState (extractBookingState messages) (extractBookingState messages))
    rw [f1, g1] at h1
    rw [f2, g2] at h2
    rw [f3, g3] at h3
    rw [f4, g4] at h4
    rw [f5, g5] at h5
    rw [f6, g6] at h6
    rw [applyConfirm_step, setStep_step]
    exact determineCurrentStep_filled _ h1 h2 h3 h4 h5 h6
  · intro hC
    by_cases hcond : (tokenAffirm (toLowerStr latest) &&
        decide (7 ≤ (setStep (mergeState (extractBookingState messages)
          (extractBookingState messages))).step)) = true
    · have hparts := hcond
      simp only [Bool.and_eq_true, decide_eq_true_eq] at hparts
      obtain ⟨ht, hs7⟩ := hparts
      rw [setStep_step] at hs7
      refine ⟨?_, ht⟩
      rw [applyConfirm_step, setStep_step]
      omega
    · exfalso
      unfold applyConfirm at hC
      rw [if_neg hcond, setStep_isComplete, mergeState_isComplete,
          extract_isComplete_false] at hC
      cases hC

set_option maxRecDepth 100000 in
/-- Witness for C3 amended at the seven-message conversation: the
completion hypothesis is discharged concretely. -/
theorem claim_C3_amended_witness :
    (updateBookingState (extractBookingState conv7) "yes, confirm" conv7).step = 7 ∧
    tokenAffirm (toLowerStr "yes, confirm") = true :=
  (claim_C3_amended conv7 "yes, confirm").2.2 (by decide)

set_option maxRecDepth 100000 in
/-- C4: appending additional user messages never decreases the step and
never changes a field that was non-empty in the record of the shorter
list; in particular the restated name of the locking conversation is
ignored and the extracted name stays Anna. -/
theorem claim_C4 :
    (∀ (messages extra : List ChatMessage), (∀ m ∈ extra, m.role = "user") →
      (extractBookingState messages).step ≤ (extractBookingState (messages ++ extra)).step ∧
      ((extractBookingState messages).patientName ≠ "" →
        (extractBookingState (messages ++ extra)).patientName
          = (extractBookingState messages).patientName) ∧
      ((extractBookingState messages).phoneNumber ≠ "" →
        (extractBookingState (messages ++ extra)).phoneNumber
          = (extractBookingState messages).phoneNumber) ∧
      ((extractBookingState messages).email ≠ "" →
        (extractBookingState (messages ++ extra)).email
          = (extractBookingState messages).email) ∧
      ((extractBookingState messages).serviceType ≠ "" →
        (extractBookingState (messages ++ extra)).serviceType
          = (extractBookingState messages).serviceType) ∧
      ((extractBookingState messages).preferredDate ≠ "" →
        (extractBookingState (messages ++ extra)).preferredDate
          = (extractBookingState messages).preferredDate) ∧
      ((extractBookingState messages).preferredTime ≠ "" →
        (extractBookingState (messages ++ extra)).preferredTime
          = (extractBookingState messages).preferredTime)) ∧
    (extractBookingState annaConv).patientName = "Anna" := by
  constructor
  · intro messages extra _
    have hx : extractBookingState (messages ++ extra) =
        finishState (foldProc (foldProc initState (userMessages messages))
          (userMessages extra)) := by
      rw [extract_def, userMessages_append, foldProc_append]
    refine ⟨?_, ?_, ?_, ?_, ?_, ?_, ?_⟩
    · rw [hx, extract_def, finishState_step, finishState_step]
      apply determineCurrentStep_mono
      refine ⟨?_, ?_, ?_, ?_, ?_, ?_⟩
      · intro h; rw [foldProc_keep_name (userMessages extra) _ h]; exact h
      · intro h; rw [foldProc_keep_phone (userMessages extra) _ h]; exact h
      · intro h; rw [foldProc_keep_email (userMessages extra) _ h]; exact h
      · intro h; rw [foldProc_keep_service (userMessages extra) _ h]; exact h
      · intro h; rw [foldProc_keep_date (userMessages extra) _ h]; exact h
      · intro h; rw [foldProc_keep_time (userMessages extra) _ h]; exact h
    · intro h
      rw [extract_def, finishState_patientName] at h
      rw [hx, finishState_patientName, extract_def, finishState_patientName]
      exact foldProc_keep_name (userMessages extra) _ h
    · intro h
      rw [extract_def, finishState_phoneNumber] at h
      rw [hx, finishState_phoneNumber, extract_def, finishState_phoneNumber]
      exact foldProc_keep_phone (userMessages extra) _ h
    · intro h
      rw [extract_def, finishState_email] at h
      rw [hx, finishState_email, extract_def, finishState_email]
      exact foldProc_keep_email (userMessages extra) _ h
    · intro h
      rw [extract_def, finishState_serviceType] at h
      rw [hx, finishState_serviceType, extract_def, finishState_serviceType]
      exact foldProc_keep_service (userMessages extra) _ h
    · intro h
      rw [extract_def, finishState_preferredDate] at h
      rw [hx, finishState_preferredDate, extract_def, finishState_preferredDate]
      exact foldProc_keep_date (userMessages extra) _ h
    · intro h
      rw [extract_def, finishState_preferredTime] at h
      rw [hx, finishState_preferredTime, extract_def, finishState_preferredTime]
      exact foldProc_keep_time (userMessages extra) _ h
  · decide

set_option maxRecDepth 100000 in
/-- Witness for C4: the locking conversation split after its first
message. -/
theorem claim_C4_witness :
    (∀ m ∈ [ChatMessage.mk "user" "Actually call me Bob"], m.role = "user") ∧
    ((extractBookingState [ChatMessage.mk "user" "My name is Anna"]).step ≤
      (extractBookingState ([ChatMessage.mk "user" "My name is Anna"] ++
        [ChatMessage.mk "user" "Actually call me Bob"])).step ∧
     ((extractBookingState [ChatMessage.mk "user" "My name is Anna"]).patientName ≠ "" →
       (extractBookingState ([ChatMessage.mk "user" "My name is Anna"] ++
         [ChatMessage.mk "user" "Actually call me Bob"])).patientName
         = (extractBookingState [ChatMessage.mk "user" "My name is Anna"]).patientName) ∧
     ((extractBookingState [ChatMessage.mk "user" "My name is Anna"]).phoneNumber ≠ "" →
       (extractBookingState ([ChatMessage.mk "user" "My name is Anna"] ++
         [ChatMessage.mk "user" "Actually call me Bob"])).phoneNumber
         = (extractBookingState [ChatMessage.mk "user" "My name is Anna"]).phoneNumber) ∧
     ((extractBookingState [ChatMessage.mk "user" "My name is Anna"]).email ≠ "" →
       (extractBookingState ([ChatMessage.mk "user" "My name is Anna"] ++
         [ChatMessage.mk "user" "Actually call me Bob"])).email
         = (extractBookingState [ChatMessage.mk "user" "My name is Anna"]).email) ∧
     ((extractBookingState [ChatMessage.mk "user" "My name is Anna"]).serviceType ≠ "" →
       (extractBookingState ([ChatMessage.mk "user" "My name is Anna"] ++
         [ChatMessage.mk "user" "Actually call me Bob"])).serviceType
         = (extractBookingState [ChatMessage.mk "user" "My name is Anna"]).serviceType) ∧
     ((extractBookingState [ChatMessage.mk "user" "My name is Anna"]).preferredDate ≠ "" →
       (extractBookingState ([ChatMessage.mk "user" "My name is Anna"] ++
         [ChatMessage.mk "user" "Actually call me Bob"])).preferredDate
         = (extractBookingState [ChatMessage.mk "user" "My name is Anna"]).preferredDate) ∧
     ((extractBookingState [ChatMessage.mk "user" "My name is Anna"]).preferredTime ≠ "" →
       (extractBookingState ([ChatMessage.mk "user" "My name is Anna"] ++
         [ChatMessage.mk "user" "Actually call me Bob"])).preferredTime
         = (extractBookingState [ChatMessage.mk "user" "My name is Anna"]).preferredTime)) :=
  ⟨by decide, claim_C4.1 _ _ (by decide)⟩

set_option maxRecDepth 100000 in
/-- Counterexample for C7: the second message of the conversation
contains the phrase broken tooth, yet the record selects the cleaning
service with routine urgency, because the first message already locked
the service field. -/
theorem claim_C7_cex :
    (ChatMessage.mk "user" "i have a broken tooth") ∈ serviceCexConv ∧
    includesStr "broken tooth"
      (toLowerStr (ChatMessage.mk "user" "i have a broken tooth").content) = true ∧
    ¬((extractBookingState serviceCexConv).serviceType = "emergency" ∧
      (extractBookingState serviceCexConv).urgency = "emergency") := by
  decide

/-- C7 amended: for every message list in which some user message
contains the phrase broken tooth in its lower-cased content and no user
message contains a synonym of the cleaning, checkup, whitening or
filling categories, the extracted record has the emergency service type
and the emergency urgency. -/
theorem claim_C7_amended :
    ∀ messages : List ChatMessage,
      (∀ m ∈ userMessages messages, ∀ k ∈ otherServiceKeywords,
        includesStr k (toLowerStr m.content) = false) →
      (∃ m ∈ userMessages messages,
        includesStr "broken tooth" (toLowerStr m.content) = true) →
      (extractBookingState messages).serviceType = "emergency" ∧
      (extractBookingState messages).urgency = "emergency" := by
  intro messages hall hex
  have h := foldProc_bt (userMessages messages) initState hall rfl hex
  rw [extract_def]
  exact ⟨by rw [finishState_serviceType]; exact h.1,
         by rw [finishState_urgency]; exact h.2⟩

set_option maxRecDepth 100000 in
/-- Witness for C7 amended at a one-message conversation mentioning a
broken tooth and no other service keyword. -/
theorem claim_C7_amended_witness :
    (∀ m ∈ userMessages [ChatMessage.mk "user" "i have a broken tooth"],
      ∀ k ∈ otherServiceKeywords, includesStr k (toLowerStr m.content) = false) ∧
    (∃ m ∈ userMessages [ChatMessage.mk "user" "i have a broken tooth"],
      includesStr "broken tooth" (toLowerStr m.content) = true) ∧
    ((extractBookingState [ChatMessage.mk "user" "i have a broken tooth"]).serviceType
        = "emergency" ∧
     (extractBookingState [ChatMessage.mk "user" "i have a broken tooth"]).urgency
        = "emergency") :=
  ⟨by decide, by decide,
   claim_C7_amended [ChatMessage.mk "user" "i have a broken tooth"]
     (by decide) (by decide)⟩

/-- C10: in every extracted record the urgency is the emergency marker
exactly when the service type is the emergency service, and the routine
marker otherwise. -/
theorem claim_C10 :
    ∀ messages : List ChatMessage,
      ((extractBookingState messages).urgency = "emergency" ↔
        (extractBookingState messages).serviceType = "emergency") ∧
      ((extractBookingState messages).serviceType ≠ "emergency" →
        (extractBookingState messages).urgency = "routine") := by
  intro messages
  have h := urgInv_extract messages
  refine ⟨⟨?_, h.1⟩, h.2⟩
  intro hu
  by_contra hs
  rw [h.2 hs] at hu
  exact absurd hu (by decide)

end DentalBooking
